import Mathlib

/-!
Shallow embedding of the pico_si470x FM radio driver: fm_si470x.c and
fm_si470x_regs.h, together with the volume remapping helpers of fm_example.c.

Modelling conventions:
- uint16_t registers are Nat values kept below 2^16; bit edits mask with 0xFFFF.
- float frequencies are modelled as exact rationals.
- Bus traffic is recorded as a list of events: burst read, burst write, sleep.
- Hardware register contents delivered by burst reads come from an oracle, a
  list of 16-register snapshots, one snapshot consumed per burst read; an
  exhausted oracle yields none (the run is not determined by the oracle).
- A C assert is modelled as a guard returning none before any effect.
- GPIO pin operations during cold power-up are not bus traffic and are omitted.
- The monotonic clock time_us_64 is passed in explicitly as a Nat argument; a
  tick and the task it invokes share one clock sample.
-/

set_option maxRecDepth 8000

-- Register indices (fm_si470x_regs.h)

def DEVICEID : Fin 16 := 0x0
def CHIPID : Fin 16 := 0x1
def POWERCFG : Fin 16 := 0x2
def CHANNEL : Fin 16 := 0x3
def SYSCONFIG1 : Fin 16 := 0x4
def SYSCONFIG2 : Fin 16 := 0x5
def SYSCONFIG3 : Fin 16 := 0x6
def TEST1 : Fin 16 := 0x7
def TEST2 : Fin 16 := 0x8
def BOOTCONFIG : Fin 16 := 0x9
def STATUSRSSI : Fin 16 := 0xA
def READCHAN : Fin 16 := 0xB
def RDSA : Fin 16 := 0xC
def RDSB : Fin 16 := 0xD
def RDSC : Fin 16 := 0xE
def RDSD : Fin 16 := 0xF

-- Bit fields (fm_si470x_regs.h)

def MFGID_LSB : Nat := 0
def MFGID_BITS : Nat := 0xFFF <<< MFGID_LSB
def PN_LSB : Nat := 12
def PN_BITS : Nat := 0xF <<< PN_LSB

def FIRMWARE_LSB : Nat := 0
def FIRMWARE_BITS : Nat := 0x3F <<< FIRMWARE_LSB
def DEV_LSB : Nat := 6
def DEV_BITS : Nat := 0xF <<< DEV_LSB
def REV_LSB : Nat := 10
def REV_BITS : Nat := 0x3F <<< REV_LSB

def ENABLE_BIT : Nat := 1 <<< 0
def DISABLE_BIT : Nat := 1 <<< 6
def SEEK_BIT : Nat := 1 <<< 8
def SEEKUP_BIT : Nat := 1 <<< 9
def SKMODE_BIT : Nat := 1 <<< 10
def RDSM_BIT : Nat := 1 <<< 11
def MONO_BIT : Nat := 1 <<< 13
def DMUTE_BIT : Nat := 1 <<< 14
def DSMUTE_BIT : Nat := 1 <<< 15

def TUNE_BIT : Nat := 1 <<< 15
def CHAN_LSB : Nat := 0
def CHAN_BITS : Nat := 0x3FF <<< CHAN_LSB

def DE_BIT : Nat := 1 <<< 11
def RDS_BIT : Nat := 1 <<< 12

def VOLUME_LSB : Nat := 0
def VOLUME_BITS : Nat := 0xF <<< VOLUME_LSB
def SPACE_LSB : Nat := 4
def SPACE_BITS : Nat := 0x3 <<< SPACE_LSB
def BAND_LSB : Nat := 6
def BAND_BITS : Nat := 0x3 <<< BAND_LSB
def SEEKTH_LSB : Nat := 8
def SEEKTH_BITS : Nat := 0xFF <<< SEEKTH_LSB

def SKCNT_LSB : Nat := 0
def SKCNT_BITS : Nat := 0xF <<< SKCNT_LSB
def SKSNR_LSB : Nat := 4
def SKSNR_BITS : Nat := 0xF <<< SKSNR_LSB
def VOLEXT_BIT : Nat := 1 <<< 8
def SMUTEA_LSB : Nat := 12
def SMUTEA_BITS : Nat := 0x3 <<< SMUTEA_LSB
def SMUTER_LSB : Nat := 14
def SMUTER_BITS : Nat := 0x3 <<< SMUTER_LSB

def XOSCEN_BIT : Nat := 1 <<< 15

def SFBL_BIT : Nat := 1 <<< 13
def STC_BIT : Nat := 1 <<< 14
def RDSR_BIT : Nat := 1 <<< 15

def READCHAN_LSB : Nat := 0
def READCHAN_BITS : Nat := 0x3FF <<< READCHAN_LSB

def DEV_SI4702 : Nat := 0b0001
def DEV_SI4703 : Nat := 0b1001

def TUNE_POLL_INTERVAL_MS : Nat := 20
def SEEK_POLL_INTERVAL_MS : Nat := 200

def FM_MAX_VOLUME : Nat := 15

-- Bit access macros (fm_set_bit, fm_get_bit, fm_set_bits, fm_get_bits)

def fm_set_bit (reg bit : Nat) (value : Bool) : Nat :=
  if value then reg ||| bit else reg &&& (0xFFFF ^^^ bit)

def fm_get_bit (reg bit : Nat) : Bool :=
  reg &&& bit != 0

def fm_set_bits (reg bits lsb value : Nat) : Nat :=
  ((reg &&& (0xFFFF ^^^ bits)) ||| (value <<< lsb)) &&& 0xFFFF

def fm_get_bits (reg bits lsb : Nat) : Nat :=
  (reg &&& bits) >>> lsb

-- Enumerations (fm_si470x.h)

inductive FmBand where
  | common
  | japanWide
  | japan
deriving DecidableEq

def FmBand.toNat : FmBand → Nat
  | .common => 0
  | .japanWide => 1
  | .japan => 2

inductive FmChannelSpacing where
  | s200
  | s100
  | s50
deriving DecidableEq

def FmChannelSpacing.toNat : FmChannelSpacing → Nat
  | .s200 => 0
  | .s100 => 1
  | .s50 => 2

inductive FmDeemphasis where
  | d75
  | d50
deriving DecidableEq

structure FmConfig where
  band : FmBand
  channel_spacing : FmChannelSpacing
  deemphasis : FmDeemphasis
deriving DecidableEq

inductive FmSeekSensitivity where
  | strongOnly
  | recommended
  | more
  | most
deriving DecidableEq

inductive FmSeekDirection where
  | down
  | up
deriving DecidableEq

inductive FmSoftmuteAttenuation where
  | a16
  | a14
  | a12
  | a10
deriving DecidableEq

def FmSoftmuteAttenuation.toNat : FmSoftmuteAttenuation → Nat
  | .a16 => 0
  | .a14 => 1
  | .a12 => 2
  | .a10 => 3

inductive FmSoftmuteRate where
  | fastest
  | fast
  | slow
  | slowest
deriving DecidableEq

def FmSoftmuteRate.toNat : FmSoftmuteRate → Nat
  | .fastest => 0
  | .fast => 1
  | .slow => 2
  | .slowest => 3

-- Frequency math (fm_frequency_range, fm_channel_to_frequency,
-- fm_frequency_to_channel); C floats are modelled as exact rationals.

structure FmFrequencyRange where
  bottom : ℚ
  top : ℚ
  spacing : ℚ
deriving DecidableEq

def fm_frequency_range (band : FmBand) (channel_spacing : FmChannelSpacing) :
    FmFrequencyRange :=
  { bottom :=
      match band with
      | .common => 87.5
      | .japanWide => 76
      | .japan => 76
    top :=
      match band with
      | .common => 108
      | .japanWide => 108
      | .japan => 90
    spacing :=
      match channel_spacing with
      | .s200 => 0.2
      | .s100 => 0.1
      | .s50 => 0.05 }

def fm_channel_to_frequency (channel : Nat) (range : FmFrequencyRange) : ℚ :=
  channel * range.spacing + range.bottom

/-- Model of the C expression (uint16_t)roundf((frequency - bottom) / spacing).
roundf rounds half away from zero; for the nonnegative arguments produced by
in-range frequencies this agrees with the round of Mathlib, which rounds half
up.  The modulo mirrors the uint16_t conversion; negative values out of the
meaningful range are clamped by toNat (the C conversion is unspecified there). -/
def fm_frequency_to_channel (frequency : ℚ) (range : FmFrequencyRange) : Nat :=
  (round ((frequency - range.bottom) / range.spacing)).toNat % 65536

-- Register shadow and bus events

abbrev Regs := Fin 16 → Nat

def getReg (regs : Regs) (i : Fin 16) : Nat := regs i

def setReg (regs : Regs) (i : Fin 16) (v : Nat) : Regs := Function.update regs i v

def updBit (regs : Regs) (i : Fin 16) (bit : Nat) (value : Bool) : Regs :=
  setReg regs i (fm_set_bit (getReg regs i) bit value)

def updBits (regs : Regs) (i : Fin 16) (bits lsb value : Nat) : Regs :=
  setReg regs i (fm_set_bits (getReg regs i) bits lsb value)

/-- Interpretation of a 16-entry literal list as a register shadow. -/
def mkRegs (l : List Nat) : Regs := fun i => l.getD (i : Nat) 0

inductive Evt where
  | read (n : Nat)
  | write (n : Nat)
  | sleepMs (ms : Nat)
deriving DecidableEq

/-- Hardware oracle: each burst read consumes one 16-register snapshot holding
the device register values the read returns. -/
abbrev Snaps := List (List Nat)

/-- Burst read order 0xA..0xF then 0x0..0x9, as documented in
fm_read_registers_up_to. -/
def fm_read_order : List (Fin 16) :=
  [0xA, 0xB, 0xC, 0xD, 0xE, 0xF, 0x0, 0x1, 0x2, 0x3, 0x4, 0x5, 0x6, 0x7, 0x8, 0x9]

/-- Burst write order 0x2..0xF, as documented in fm_write_registers_up_to. -/
def fm_write_order : List (Fin 16) :=
  [0x2, 0x3, 0x4, 0x5, 0x6, 0x7, 0x8, 0x9, 0xA, 0xB, 0xC, 0xD, 0xE, 0xF]

/-- Effect of fm_read_registers on the shadow: the first n registers in read
order receive the values the device streams, i.e. the snapshot values. -/
def fm_read_registers (regs : Regs) (snap : List Nat) (n : Nat) : Regs :=
  (fm_read_order.take n).foldl
    (fun rs i => setReg rs i (snap.getD (i : Nat) 0 &&& 0xFFFF)) regs

/-- Burst length chosen by fm_read_registers_up_to. -/
def fm_read_registers_up_to_count (reg_index : Fin 16) : Nat :=
  if (reg_index : Nat) < 0xA then (reg_index : Nat) + 7 else (reg_index : Nat) - 9

/-- Burst length chosen by fm_write_registers_up_to. -/
def fm_write_registers_up_to_count (reg_index : Fin 16) : Nat :=
  (reg_index : Nat) - 1

/-- fm_read_registers_up_to: consume one oracle snapshot, update the shadow,
record the burst read. -/
def fm_read_registers_up_to (regs : Regs) (snaps : Snaps) (reg_index : Fin 16) :
    Option (Regs × Snaps × List Evt) :=
  match snaps with
  | [] => none
  | snap :: rest =>
      let n := fm_read_registers_up_to_count reg_index
      some (fm_read_registers regs snap n, rest, [Evt.read n])

/-- fm_write_registers_up_to as a trace event: the shadow is already up to
date, the burst pushes its first count registers in write order to the bus. -/
def fm_write_registers_up_to_evt (reg_index : Fin 16) : Evt :=
  Evt.write (fm_write_registers_up_to_count reg_index)

-- fm_set_seek_sensitivity_bits

def fm_set_seek_sensitivity_bits (regs : Regs) (seek_sensitivity : FmSeekSensitivity) :
    Regs :=
  let seekth : Nat :=
    match seek_sensitivity with
    | .strongOnly => 0xC
    | .recommended => 0x19
    | .more => 0xC
    | .most => 0x0
  let sksnr : Nat :=
    match seek_sensitivity with
    | .strongOnly => 0x7
    | .recommended => 0x4
    | .more => 0x4
    | .most => 0x4
  let skcnt : Nat :=
    match seek_sensitivity with
    | .strongOnly => 0xF
    | .recommended => 0x8
    | .more => 0x8
    | .most => 0xF
  updBits (updBits (updBits regs SYSCONFIG2 SEEKTH_BITS SEEKTH_LSB seekth)
      SYSCONFIG3 SKSNR_BITS SKSNR_LSB sksnr)
    SYSCONFIG3 SKCNT_BITS SKCNT_LSB skcnt

-- Device handle (si470x_t); bus handle, pins and pull-up flag are constants
-- never mutated by the driver and are omitted.

inductive FmAsyncTask where
  | tuneTask
  | seekTask
deriving DecidableEq

structure FmAsyncState where
  task : Option FmAsyncTask
  state : Nat
  resume_time : Nat
deriving DecidableEq

/-- The zero-initialized fm_async_state_t used to clear the slot. -/
def FmAsyncState.empty : FmAsyncState := ⟨none, 0, 0⟩

structure Si470x where
  config : FmConfig
  seek_sensitivity : FmSeekSensitivity
  frequency : ℚ
  mute : Bool
  softmute : Bool
  softmute_rate : FmSoftmuteRate
  softmute_attenuation : FmSoftmuteAttenuation
  mono : Bool
  volext : Bool
  volume : Nat
  regs : Regs
  async : FmAsyncState
deriving DecidableEq

structure FmAsyncProgress where
  done : Bool
  result : Int
deriving DecidableEq

-- Simple queries

def fm_is_powered_up (rd : Si470x) : Bool :=
  fm_get_bit (getReg rd.regs POWERCFG) ENABLE_BIT

def fm_is_rds_supported (rd : Si470x) : Bool :=
  fm_get_bits (getReg rd.regs CHIPID) DEV_BITS DEV_LSB == DEV_SI4703

def fm_get_config (rd : Si470x) : FmConfig := rd.config

def fm_get_frequency_range (rd : Si470x) : FmFrequencyRange :=
  fm_frequency_range rd.config.band rd.config.channel_spacing

def fm_get_frequency (rd : Si470x) : ℚ := rd.frequency

def fm_get_seek_sensitivity (rd : Si470x) : FmSeekSensitivity := rd.seek_sensitivity

def fm_get_mute (rd : Si470x) : Bool := rd.mute

def fm_get_softmute (rd : Si470x) : Bool := rd.softmute

def fm_get_softmute_rate (rd : Si470x) : FmSoftmuteRate := rd.softmute_rate

def fm_get_softmute_attenuation (rd : Si470x) : FmSoftmuteAttenuation :=
  rd.softmute_attenuation

def fm_get_mono (rd : Si470x) : Bool := rd.mono

def fm_get_volume (rd : Si470x) : Nat := rd.volume

def fm_get_volext (rd : Si470x) : Bool := rd.volext

-- Value setters

def fm_set_mute (rd : Si470x) (mute : Bool) : Option (Si470x × List Evt) :=
  if fm_is_powered_up rd = false then none
  else if rd.async.task ≠ none then none
  else if rd.mute = mute then some (rd, [])
  else
    let regs := updBit rd.regs POWERCFG DMUTE_BIT (!mute)
    some ({rd with regs := regs, mute := mute}, [fm_write_registers_up_to_evt POWERCFG])

def fm_set_softmute (rd : Si470x) (softmute : Bool) : Option (Si470x × List Evt) :=
  if fm_is_powered_up rd = false then none
  else if rd.async.task ≠ none then none
  else if rd.softmute = softmute then some (rd, [])
  else
    let regs := updBit rd.regs POWERCFG DSMUTE_BIT (!softmute)
    some ({rd with regs := regs, softmute := softmute},
      [fm_write_registers_up_to_evt POWERCFG])

def fm_set_softmute_rate (rd : Si470x) (softmute_rate : FmSoftmuteRate) :
    Option (Si470x × List Evt) :=
  if fm_is_powered_up rd = false then none
  else if rd.async.task ≠ none then none
  else if rd.softmute_rate = softmute_rate then some (rd, [])
  else
    let regs := updBits rd.regs SYSCONFIG3 SMUTER_BITS SMUTER_LSB softmute_rate.toNat
    some ({rd with regs := regs, softmute_rate := softmute_rate},
      [fm_write_registers_up_to_evt SYSCONFIG3])

def fm_set_softmute_attenuation (rd : Si470x)
    (softmute_attenuation : FmSoftmuteAttenuation) : Option (Si470x × List Evt) :=
  if fm_is_powered_up rd = false then none
  else if rd.async.task ≠ none then none
  else if rd.softmute_attenuation = softmute_attenuation then some (rd, [])
  else
    let regs := updBits rd.regs SYSCONFIG3 SMUTEA_BITS SMUTEA_LSB
      softmute_attenuation.toNat
    some ({rd with regs := regs, softmute_attenuation := softmute_attenuation},
      [fm_write_registers_up_to_evt SYSCONFIG3])

def fm_set_mono (rd : Si470x) (mono : Bool) : Option (Si470x × List Evt) :=
  if fm_is_powered_up rd = false then none
  else if rd.async.task ≠ none then none
  else if rd.mono = mono then some (rd, [])
  else
    let regs := updBit rd.regs POWERCFG MONO_BIT mono
    some ({rd with regs := regs, mono := mono}, [fm_write_registers_up_to_evt POWERCFG])

def fm_set_seek_sensitivity (rd : Si470x) (seek_sensitivity : FmSeekSensitivity) :
    Option (Si470x × List Evt) :=
  if fm_is_powered_up rd = false then none
  else if rd.async.task ≠ none then none
  else if rd.seek_sensitivity = seek_sensitivity then some (rd, [])
  else
    let regs := fm_set_seek_sensitivity_bits rd.regs seek_sensitivity
    some ({rd with regs := regs, seek_sensitivity := seek_sensitivity},
      [fm_write_registers_up_to_evt SYSCONFIG3])

def fm_set_volume (rd : Si470x) (volume0 : Nat) (volext : Bool) :
    Option (Si470x × List Evt) :=
  if fm_is_powered_up rd = false then none
  else if rd.async.task ≠ none then none
  else
    let volume := min volume0 FM_MAX_VOLUME
    if rd.volume = volume ∧ rd.volext = volext then some (rd, [])
    else
      let regs := updBit (updBits rd.regs SYSCONFIG2 VOLUME_BITS VOLUME_LSB volume)
        SYSCONFIG3 VOLEXT_BIT volext
      some ({rd with regs := regs, volume := volume, volext := volext},
        [fm_write_registers_up_to_evt SYSCONFIG3])

-- Volume remapping helpers of fm_example.c (static set_volume / get_volume)

/-- get_volume of fm_example.c: remap volume and volext into a continuous
range between 0 and 30. -/
def example_get_volume (rd : Si470x) : Nat :=
  let volume := fm_get_volume rd
  if volume ≠ 0 ∧ fm_get_volext rd = false then volume + 15 else volume

/-- set_volume of fm_example.c: volumes below 16 use the extended (low) range,
the rest use the high range. -/
def example_set_volume (rd : Si470x) (volume : Nat) : Option (Si470x × List Evt) :=
  if volume ≤ 30 then
    if volume < 16 then fm_set_volume rd volume true
    else fm_set_volume rd (volume - 15) false
  else none

-- Async task start

def fm_set_frequency_async (rd : Si470x) (frequency : ℚ) (now : Nat) :
    Option (Si470x × List Evt) :=
  if fm_is_powered_up rd = false then none
  else if rd.async.task ≠ none then none
  else
    let channel := fm_frequency_to_channel frequency (fm_get_frequency_range rd)
    let regs := updBit (updBits rd.regs CHANNEL CHAN_BITS CHAN_LSB channel)
      CHANNEL TUNE_BIT true
    let a : FmAsyncState := ⟨some FmAsyncTask.tuneTask, 1, now + TUNE_POLL_INTERVAL_MS * 1000⟩
    some ({rd with regs := regs, async := a}, [fm_write_registers_up_to_evt CHANNEL])

def fm_seek_async (rd : Si470x) (direction : FmSeekDirection) (now : Nat) :
    Option (Si470x × List Evt) :=
  if fm_is_powered_up rd = false then none
  else if rd.async.task ≠ none then none
  else
    let regs := updBit (updBit (updBit rd.regs POWERCFG SKMODE_BIT false)
        POWERCFG SEEKUP_BIT (direction = FmSeekDirection.up))
      POWERCFG SEEK_BIT true
    let a : FmAsyncState := ⟨some FmAsyncTask.seekTask, 1, now + SEEK_POLL_INTERVAL_MS * 1000⟩
    some ({rd with regs := regs, async := a}, [fm_write_registers_up_to_evt POWERCFG])

-- STC spin loop shared by both tasks: do read up to STATUSRSSI while STC set.

def fm_wait_stc_clear (regs : Regs) (snaps : Snaps) :
    Option (Regs × Snaps × List Evt) :=
  match snaps with
  | [] => none
  | snap :: rest =>
      let n := fm_read_registers_up_to_count STATUSRSSI
      let regs1 := fm_read_registers regs snap n
      if fm_get_bit (getReg regs1 STATUSRSSI) STC_BIT then
        match fm_wait_stc_clear regs1 rest with
        | none => none
        | some (regs2, rest2, evts) => some (regs2, rest2, Evt.read n :: evts)
      else
        some (regs1, rest, [Evt.read n])

-- Tune task (fm_set_frequency_async_task)

/-- Shared completion path of the tune task: clear the tune bit, write through
CHANNEL, spin until STC clears, read through READCHAN and store the reached
frequency. -/
def fm_tune_finish (result : Int) (rd : Si470x) (snaps : Snaps) (evts0 : List Evt) :
    Option (FmAsyncProgress × Si470x × Snaps × List Evt) :=
  let regs := updBit rd.regs CHANNEL TUNE_BIT false
  let evts1 := evts0 ++ [fm_write_registers_up_to_evt CHANNEL]
  match fm_wait_stc_clear regs snaps with
  | none => none
  | some (regs2, snaps2, evts2) =>
    match fm_read_registers_up_to regs2 snaps2 READCHAN with
    | none => none
    | some (regs3, snaps3, evts3) =>
      let channel := fm_get_bits (getReg regs3 READCHAN) READCHAN_BITS READCHAN_LSB
      let freq := fm_channel_to_frequency channel
        (fm_frequency_range rd.config.band rd.config.channel_spacing)
      some (⟨true, result⟩, {rd with regs := regs3, frequency := freq},
        snaps3, evts1 ++ evts2 ++ evts3)

def fm_set_frequency_async_task (rd : Si470x) (cancel : Bool) (now : Nat)
    (snaps : Snaps) : Option (FmAsyncProgress × Si470x × Snaps × List Evt) :=
  if rd.async.task ≠ some FmAsyncTask.tuneTask then none
  else if rd.async.state ≠ 1 then none
  else if cancel then fm_tune_finish (-1) rd snaps []
  else
    match fm_read_registers_up_to rd.regs snaps STATUSRSSI with
    | none => none
    | some (regs1, snaps1, evts1) =>
      if fm_get_bit (getReg regs1 STATUSRSSI) STC_BIT = false then
        let a := {rd.async with resume_time := now + TUNE_POLL_INTERVAL_MS * 1000}
        some (⟨false, 0⟩, {rd with regs := regs1, async := a}, snaps1, evts1)
      else fm_tune_finish 0 {rd with regs := regs1} snaps1 evts1

-- Seek task (fm_seek_async_task)

/-- Shared completion path of the seek task: clear the seek bit, write through
POWERCFG, spin until STC clears, read through READCHAN and store the reached
frequency. -/
def fm_seek_finish (result : Int) (rd : Si470x) (snaps : Snaps) (evts0 : List Evt) :
    Option (FmAsyncProgress × Si470x × Snaps × List Evt) :=
  let regs := updBit rd.regs POWERCFG SEEK_BIT false
  let evts1 := evts0 ++ [fm_write_registers_up_to_evt POWERCFG]
  match fm_wait_stc_clear regs snaps with
  | none => none
  | some (regs2, snaps2, evts2) =>
    match fm_read_registers_up_to regs2 snaps2 READCHAN with
    | none => none
    | some (regs3, snaps3, evts3) =>
      let channel := fm_get_bits (getReg regs3 READCHAN) READCHAN_BITS READCHAN_LSB
      let freq := fm_channel_to_frequency channel
        (fm_frequency_range rd.config.band rd.config.channel_spacing)
      some (⟨true, result⟩, {rd with regs := regs3, frequency := freq},
        snaps3, evts1 ++ evts2 ++ evts3)

def fm_seek_async_task (rd : Si470x) (cancel : Bool) (now : Nat) (snaps : Snaps) :
    Option (FmAsyncProgress × Si470x × Snaps × List Evt) :=
  if rd.async.task ≠ some FmAsyncTask.seekTask then none
  else if rd.async.state ≠ 1 then none
  else if cancel then fm_seek_finish (-1) rd snaps []
  else
    match fm_read_registers_up_to rd.regs snaps READCHAN with
    | none => none
    | some (regs1, snaps1, evts1) =>
      if fm_get_bit (getReg regs1 STATUSRSSI) STC_BIT = false then
        let channel := fm_get_bits (getReg regs1 READCHAN) READCHAN_BITS READCHAN_LSB
        let freq := fm_channel_to_frequency channel
          (fm_frequency_range rd.config.band rd.config.channel_spacing)
        let a := {rd.async with resume_time := now + SEEK_POLL_INTERVAL_MS * 1000}
        some (⟨false, 0⟩, {rd with regs := regs1, frequency := freq, async := a},
          snaps1, evts1)
      else
        let result : Int :=
          if fm_get_bit (getReg regs1 STATUSRSSI) SFBL_BIT then -1 else 0
        fm_seek_finish result {rd with regs := regs1} snaps1 evts1

-- Task dispatch (the function pointer stored in the async slot)

def fm_run_task (t : FmAsyncTask) (rd : Si470x) (cancel : Bool) (now : Nat)
    (snaps : Snaps) : Option (FmAsyncProgress × Si470x × Snaps × List Evt) :=
  match t with
  | .tuneTask => fm_set_frequency_async_task rd cancel now snaps
  | .seekTask => fm_seek_async_task rd cancel now snaps

-- Async engine (fm_async_task_tick, fm_async_task_cancel)

def fm_async_task_tick (rd : Si470x) (now : Nat) (snaps : Snaps) :
    Option (FmAsyncProgress × Si470x × Snaps × List Evt) :=
  match rd.async.task with
  | none => none
  | some t =>
    if now < rd.async.resume_time then some (⟨false, 0⟩, rd, snaps, [])
    else
      match fm_run_task t rd false now snaps with
      | none => none
      | some (progress, rd1, snaps1, evts) =>
        let rd2 := if progress.done then {rd1 with async := FmAsyncState.empty} else rd1
        some (progress, rd2, snaps1, evts)

def fm_async_task_cancel (rd : Si470x) (snaps : Snaps) :
    Option (Si470x × Snaps × List Evt) :=
  match rd.async.task with
  | none => none
  | some t =>
    match fm_run_task t rd true 0 snaps with
    | none => none
    | some (_, rd1, snaps1, evts) =>
      some ({rd1 with async := FmAsyncState.empty}, snaps1, evts)

-- Blocking tune (fm_set_frequency_blocking): sleep then tick until done.
-- One clock sample is consumed from times per loop iteration.

def fm_tick_loop (pollMs : Nat) (rd : Si470x) (times : List Nat) (snaps : Snaps) :
    Option (FmAsyncProgress × Si470x × Snaps × List Evt) :=
  match times with
  | [] => none
  | t :: ts =>
    match fm_async_task_tick rd t snaps with
    | none => none
    | some (progress, rd1, snaps1, evts) =>
      if progress.done then some (progress, rd1, snaps1, Evt.sleepMs pollMs :: evts)
      else
        match fm_tick_loop pollMs rd1 ts snaps1 with
        | none => none
        | some (progress2, rd2, snaps2, evts2) =>
          some (progress2, rd2, snaps2, (Evt.sleepMs pollMs :: evts) ++ evts2)

def fm_set_frequency_blocking (rd : Si470x) (frequency : ℚ) (times : List Nat)
    (snaps : Snaps) : Option (Si470x × Snaps × List Evt) :=
  if fm_is_powered_up rd = false then none
  else if rd.async.task ≠ none then none
  else if rd.frequency = frequency then some (rd, snaps, [])
  else
    match times with
    | [] => none
    | t0 :: ts =>
      match fm_set_frequency_async rd frequency t0 with
      | none => none
      | some (rd1, evts1) =>
        match fm_tick_loop TUNE_POLL_INTERVAL_MS rd1 ts snaps with
        | none => none
        | some (_, rd2, snaps2, evts2) => some (rd2, snaps2, evts1 ++ evts2)

-- Power lifecycle (fm_power_up, fm_power_down)

def fm_power_up (rd : Si470x) (config : FmConfig) (times : List Nat) (snaps : Snaps) :
    Option (Si470x × Snaps × List Evt) :=
  if fm_is_powered_up rd then none
  else if fm_get_bit (getReg rd.regs POWERCFG) DISABLE_BIT = true ∧ rd.config = config then
    -- waking up after power down with the same configuration: fast path
    let regs1 := updBit (updBit (updBit rd.regs POWERCFG ENABLE_BIT true)
        POWERCFG DISABLE_BIT false)
      POWERCFG DMUTE_BIT (!rd.mute)
    let rd1 := {rd with regs := regs1}
    let evts1 := [fm_write_registers_up_to_evt POWERCFG, Evt.sleepMs 110]
    if fm_is_rds_supported rd1 then
      let rd2 := {rd1 with regs := updBit rd1.regs SYSCONFIG1 RDS_BIT true}
      some (rd2, snaps, evts1 ++ [fm_write_registers_up_to_evt SYSCONFIG1])
    else some (rd1, snaps, evts1)
  else
    -- cold path: reset sequence, oscillator setup, full configuration
    let rd0 := {rd with config := config}
    let evts0 := [Evt.sleepMs 5, Evt.sleepMs 5]
    match snaps with
    | [] => none
    | snap1 :: snaps1 =>
      let regs1 := fm_read_registers rd0.regs snap1 16
      let evts1 := evts0 ++ [Evt.read 16]
      if fm_get_bits (getReg regs1 DEVICEID) MFGID_BITS MFGID_LSB ≠ 0x242 then none
      else if fm_get_bits (getReg regs1 DEVICEID) PN_BITS PN_LSB ≠ 0x1 then none
      else
        let regs2 := setReg regs1 TEST1 (getReg regs1 TEST1 ||| XOSCEN_BIT)
        let regs3 := setReg regs2 RDSD 0
        let evts3 := evts1 ++ [fm_write_registers_up_to_evt RDSD, Evt.sleepMs 500]
        let regs4 := setReg regs3 POWERCFG ENABLE_BIT
        let evts4 := evts3 ++ [fm_write_registers_up_to_evt POWERCFG, Evt.sleepMs 110]
        match snaps1 with
        | [] => none
        | snap2 :: snaps2 =>
          let regs5 := fm_read_registers regs4 snap2 16
          let evts5 := evts4 ++ [Evt.read 16]
          let dev := fm_get_bits (getReg regs5 CHIPID) DEV_BITS DEV_LSB
          if dev ≠ DEV_SI4702 ∧ dev ≠ DEV_SI4703 then none
          else
            let rd5 := {rd0 with regs := regs5}
            let regs6 := updBit regs5 POWERCFG MONO_BIT rd.mono
            let regs7 := updBit regs6 POWERCFG DMUTE_BIT (!rd.mute)
            let regs8 := updBit regs7 POWERCFG DSMUTE_BIT (!rd.softmute)
            let regs9 :=
              if fm_is_rds_supported rd5 then updBit regs8 SYSCONFIG1 RDS_BIT true
              else regs8
            let regs10 := updBit regs9 SYSCONFIG1 DE_BIT
              (config.deemphasis = FmDeemphasis.d50)
            let regs11 := updBits regs10 SYSCONFIG2 VOLUME_BITS VOLUME_LSB rd.volume
            let regs12 := updBits regs11 SYSCONFIG2 BAND_BITS BAND_LSB config.band.toNat
            let regs13 := updBits regs12 SYSCONFIG2 SPACE_BITS SPACE_LSB
              config.channel_spacing.toNat
            let regs14 := updBit regs13 SYSCONFIG3 VOLEXT_BIT rd.volext
            let regs15 := updBits regs14 SYSCONFIG3 SMUTEA_BITS SMUTEA_LSB
              rd.softmute_attenuation.toNat
            let regs16 := updBits regs15 SYSCONFIG3 SMUTER_BITS SMUTER_LSB
              rd.softmute_rate.toNat
            let regs17 := fm_set_seek_sensitivity_bits regs16 rd.seek_sensitivity
            let evts17 := evts5 ++ [fm_write_registers_up_to_evt SYSCONFIG3]
            let rd17 := {rd0 with regs := regs17}
            if rd.frequency ≠ 0 then
              match fm_set_frequency_blocking {rd17 with frequency := 0} rd.frequency
                  times snaps2 with
              | none => none
              | some (rdr, snapsr, evtsr) => some (rdr, snapsr, evts17 ++ evtsr)
            else some (rd17, snaps2, evts17)

def fm_power_down (rd : Si470x) (snaps : Snaps) : Option (Si470x × Snaps × List Evt) :=
  if fm_is_powered_up rd = false then none
  else
    let step :=
      match rd.async.task with
      | none => some (rd, snaps, ([] : List Evt))
      | some _ => fm_async_task_cancel rd snaps
    match step with
    | none => none
    | some (rd1, snaps1, evts1) =>
      let p2 :=
        if fm_is_rds_supported rd1 then
          ({rd1 with regs := updBit rd1.regs SYSCONFIG1 RDS_BIT false},
            [fm_write_registers_up_to_evt SYSCONFIG1])
        else (rd1, ([] : List Evt))
      let rd2 := p2.1
      let regs3 := updBit (updBit rd2.regs POWERCFG DMUTE_BIT false)
        POWERCFG DISABLE_BIT true
      let evts3 := [fm_write_registers_up_to_evt POWERCFG]
      -- update shadow register for internal bookkeeping
      let regs4 := updBit regs3 POWERCFG ENABLE_BIT false
      some ({rd2 with regs := regs4}, snaps1, evts1 ++ p2.2 ++ evts3)

-- Concrete states and oracles used to exercise the definitions

def exConfig : FmConfig := ⟨FmBand.common, FmChannelSpacing.s100, FmDeemphasis.d50⟩

/-- Powered-up Si4702 (no RDS): ENABLE set in POWERCFG, slot empty. -/
def exRadioUp : Si470x :=
  { config := exConfig
    seek_sensitivity := FmSeekSensitivity.recommended
    frequency := 95.6
    mute := true
    softmute := true
    softmute_rate := FmSoftmuteRate.fastest
    softmute_attenuation := FmSoftmuteAttenuation.a16
    mono := false
    volext := false
    volume := 0
    regs := mkRegs [0x1242, 0x0040, 0x0001, 0, 0, 0, 0, 0, 0, 0, 0, 0, 0, 0, 0, 0]
    async := FmAsyncState.empty }

/-- Powered-up Si4703 (RDS capable, DEV = 0b1001). -/
def exRadioUpRds : Si470x :=
  {exRadioUp with regs := mkRegs [0x1242, 0x0240, 0x0001, 0, 0, 0, 0, 0, 0, 0, 0, 0, 0, 0, 0, 0]}

/-- Powered-down Si4703 with DISABLE set in the shadow, ready for the
fast wake-up path. -/
def exRadioSleepRds : Si470x :=
  {exRadioUp with regs := mkRegs [0x1242, 0x0240, 0x0040, 0, 0, 0, 0, 0, 0, 0, 0, 0, 0, 0, 0, 0]}

def exRadioTune : Si470x :=
  {exRadioUp with async := ⟨some FmAsyncTask.tuneTask, 1, 5000⟩}

def exRadioSeek : Si470x :=
  {exRadioUp with async := ⟨some FmAsyncTask.seekTask, 1, 5000⟩}

/-- Hardware snapshot with STC set and SFBL clear, current channel 81. -/
def exSnapStc : List Nat := [0, 0, 0, 0, 0, 0, 0, 0, 0, 0, 0x4000, 81, 0, 0, 0, 0]

/-- Hardware snapshot with STC and SFBL both set. -/
def exSnapSfbl : List Nat := [0, 0, 0, 0, 0, 0, 0, 0, 0, 0, 0x6000, 81, 0, 0, 0, 0]

/-- Hardware snapshot with STC clear, current channel 81. -/
def exSnapClear : List Nat := [0, 0, 0, 0, 0, 0, 0, 0, 0, 0, 0, 81, 0, 0, 0, 0]

/-- True when the event is not a burst write reaching past the first k write
slots; used to phrase that a trace writes only the power-control register. -/
def evt_writes_at_most (k : Nat) (e : Evt) : Bool :=
  match e with
  | Evt.write n => decide (n ≤ k)
  | _ => true

-- Helper lemmas about the register shadow

theorem getReg_setReg_self (regs : Regs) (i : Fin 16) (v : Nat) :
    getReg (setReg regs i v) i = v := by
  simp [getReg, setReg]

theorem getReg_setReg_ne (regs : Regs) (i j : Fin 16) (v : Nat) (h : j ≠ i) :
    getReg (setReg regs i v) j = getReg regs j := by
  simp [getReg, setReg, Function.update_noteq h]

theorem getReg_updBit_self (regs : Regs) (i : Fin 16) (bit : Nat) (v : Bool) :
    getReg (updBit regs i bit v) i = fm_set_bit (getReg regs i) bit v := by
  simp [updBit, getReg_setReg_self]

theorem getReg_updBit_ne (regs : Regs) (i j : Fin 16) (bit : Nat) (v : Bool) (h : j ≠ i) :
    getReg (updBit regs i bit v) j = getReg regs j := by
  simp [updBit, getReg_setReg_ne _ _ _ _ h]

theorem getReg_updBits_self (regs : Regs) (i : Fin 16) (bits lsb v : Nat) :
    getReg (updBits regs i bits lsb v) i = fm_set_bits (getReg regs i) bits lsb v := by
  simp [updBits, getReg_setReg_self]

theorem getReg_updBits_ne (regs : Regs) (i j : Fin 16) (bits lsb v : Nat) (h : j ≠ i) :
    getReg (updBits regs i bits lsb v) j = getReg regs j := by
  simp [updBits, getReg_setReg_ne _ _ _ _ h]

-- Helper lemmas about single-bit access

theorem fm_get_bit_pow (y k : Nat) : fm_get_bit y (1 <<< k) = y.testBit k := by
  unfold fm_get_bit
  rw [Nat.one_shiftLeft, Nat.and_two_pow]
  cases h : y.testBit k with
  | true => simp [h, (Nat.two_pow_pos k).ne.symm]
  | false => simp [h]

theorem fm_set_bit_testBit (x j k : Nat) (hk : k < 16) (v : Bool) :
    (fm_set_bit x (1 <<< j) v).testBit k = if j = k then v else x.testBit k := by
  unfold fm_set_bit
  cases v with
  | true =>
    rw [if_pos rfl, Nat.one_shiftLeft, Nat.testBit_or, Nat.testBit_two_pow]
    by_cases hj : j = k <;> simp [hj]
  | false =>
    rw [if_neg (by simp), Nat.one_shiftLeft]
    rw [show (0xFFFF : Nat) = 2 ^ 16 - 1 by norm_num]
    rw [Nat.testBit_and, Nat.testBit_xor, Nat.testBit_two_pow,
      Nat.testBit_two_pow_sub_one]
    by_cases hj : j = k <;> simp [hj, hk]

theorem fm_get_bit_fm_set_bit (x j k : Nat) (hk : k < 16) (v : Bool) :
    fm_get_bit (fm_set_bit x (1 <<< j) v) (1 <<< k) =
      if j = k then v else fm_get_bit x (1 <<< k) := by
  rw [fm_get_bit_pow, fm_set_bit_testBit x j k hk v, fm_get_bit_pow]

-- Claim C8

/-- Claim C8: for every target register index r in 0x0..0xF, the burst read
issued by fm_read_registers_up_to covers exactly ((r - 0xA) mod 16) + 1
registers, which is the minimal count reaching r in the fixed cyclic read
order starting at 0xA; and for every r in 0x2..0xF the burst write issued by
fm_write_registers_up_to covers exactly r - 1 registers, the minimal count
reaching r in the write order starting at 0x2. -/
theorem fm_registers_up_to_minimal_counts :
    ∀ r : Fin 16,
      (fm_read_registers_up_to_count r = ((((r : Nat) : ℤ) - 0xA) % 16 + 1).toNat
        ∧ fm_read_registers_up_to_count r = fm_read_order.indexOf r + 1)
      ∧ (0x2 ≤ (r : Nat) →
          fm_write_registers_up_to_count r = (r : Nat) - 1
            ∧ fm_write_registers_up_to_count r = fm_write_order.indexOf r + 1) := by
  decide

theorem fm_registers_up_to_minimal_counts_witness :
    0x2 ≤ ((0xB : Fin 16) : Nat)
      ∧ fm_write_registers_up_to_count 0xB = ((0xB : Fin 16) : Nat) - 1
      ∧ fm_write_registers_up_to_count 0xB = fm_write_order.indexOf 0xB + 1 :=
  ⟨by decide, (fm_registers_up_to_minimal_counts 0xB).2 (by decide)⟩

-- Claim C9

/-- Core rounding fact used for the channel conversion: for a nonnegative
argument that stays well below the uint16_t range, the toNat and modulo in
fm_frequency_to_channel are the identity on round. -/
theorem round_toNat_mod_eq (x : ℚ) (h0 : 0 ≤ x) (hb : x + 1 / 2 < 65536) :
    (((round x).toNat % 65536 : ℕ) : ℤ) = round x := by
  have h1 : (0 : ℤ) ≤ round x := by
    rw [round_eq]
    exact Int.floor_nonneg.mpr (by linarith)
  have h2 : ((round x : ℤ) : ℚ) ≤ x + 1 / 2 := round_le_add_half x
  have h3 : round x < 65536 := by exact_mod_cast lt_of_le_of_lt h2 hb
  have h4 : (round x).toNat < 65536 := by omega
  rw [Nat.mod_eq_of_lt h4]
  exact Int.toNat_of_nonneg h1

/-- Round trip of the channel conversion over one concrete frequency range. -/
theorem fm_round_trip_aux (b t s : ℚ) (hs : 0 < s) (hbnd : (t - b) / s + 1 / 2 < 65536)
    (f : ℚ) (hb : b ≤ f) (ht : f ≤ t) :
    ((fm_frequency_to_channel f ⟨b, t, s⟩ : ℤ) = round ((f - b) / s))
      ∧ |fm_channel_to_frequency (fm_frequency_to_channel f ⟨b, t, s⟩) ⟨b, t, s⟩ - f|
          ≤ s / 2 := by
  have hx0 : 0 ≤ (f - b) / s := div_nonneg (by linarith) hs.le
  have hxle : (f - b) / s ≤ (t - b) / s := (div_le_div_iff_of_pos_right hs).mpr (by linarith)
  have hxb : (f - b) / s + 1 / 2 < 65536 := by linarith
  have hcast : ((fm_frequency_to_channel f ⟨b, t, s⟩ : ℕ) : ℤ) = round ((f - b) / s) :=
    round_toNat_mod_eq _ hx0 hxb
  refine ⟨hcast, ?_⟩
  have hQ : ((fm_frequency_to_channel f ⟨b, t, s⟩ : ℕ) : ℚ)
      = ((round ((f - b) / s) : ℤ) : ℚ) := by exact_mod_cast hcast
  show |(fm_frequency_to_channel f ⟨b, t, s⟩ : ℚ) * s + b - f| ≤ s / 2
  rw [hQ]
  have hfb : ((f - b) / s) * s = f - b := div_mul_cancel₀ _ hs.ne.symm
  have hsplit : ((round ((f - b) / s) : ℤ) : ℚ) * s + b - f
      = (((round ((f - b) / s) : ℤ) : ℚ) - (f - b) / s) * s := by
    rw [sub_mul, hfb]
    ring
  rw [hsplit, abs_mul, abs_of_pos hs, abs_sub_comm]
  have habs : |(f - b) / s - ((round ((f - b) / s) : ℤ) : ℚ)| ≤ 1 / 2 :=
    abs_sub_round ((f - b) / s)
  have := mul_le_mul_of_nonneg_right habs hs.le
  linarith

/-- Claim C9: channel_to_frequency is channel times spacing plus bottom;
frequency_to_channel is its inverse by rounding (f - bottom) / spacing to the
nearest integer channel; and for every (band, spacing) pair and every in-range
frequency the round trip lands within one half channel spacing of the input. -/
theorem fm_channel_frequency_math :
    ∀ (band : FmBand) (cs : FmChannelSpacing) (r : FmFrequencyRange),
      r = fm_frequency_range band cs →
      0 < r.spacing
        ∧ (∀ c : Nat, fm_channel_to_frequency c r = c * r.spacing + r.bottom)
        ∧ (∀ f : ℚ, r.bottom ≤ f → f ≤ r.top →
            ((fm_frequency_to_channel f r : ℤ) = round ((f - r.bottom) / r.spacing)
              ∧ |fm_channel_to_frequency (fm_frequency_to_channel f r) r - f|
                  ≤ r.spacing / 2)) := by
  rintro band cs r rfl
  refine ⟨?_, fun c => rfl, fun f hb ht => ?_⟩
  · cases band <;> cases cs <;> norm_num [fm_frequency_range]
  · cases band <;> cases cs <;>
      exact fm_round_trip_aux _ _ _ (by norm_num [fm_frequency_range])
        (by norm_num [fm_frequency_range]) f hb ht

theorem fm_channel_frequency_math_witness :
    (fm_frequency_to_channel 95.6 (fm_frequency_range FmBand.common FmChannelSpacing.s100) : ℤ)
        = round (((95.6 : ℚ) - (fm_frequency_range FmBand.common FmChannelSpacing.s100).bottom)
            / (fm_frequency_range FmBand.common FmChannelSpacing.s100).spacing)
      ∧ |fm_channel_to_frequency
            (fm_frequency_to_channel 95.6 (fm_frequency_range FmBand.common FmChannelSpacing.s100))
            (fm_frequency_range FmBand.common FmChannelSpacing.s100) - 95.6|
          ≤ (fm_frequency_range FmBand.common FmChannelSpacing.s100).spacing / 2 :=
  (fm_channel_frequency_math FmBand.common FmChannelSpacing.s100 _ rfl).2.2 95.6
    (by norm_num [fm_frequency_range]) (by norm_num [fm_frequency_range])

-- Claim C1

/-- Claim C1: for every volume input between 0 and 30, the set_volume helper
of the example maps it invertibly onto a 0..15 hardware level plus the
extension flag (levels 0..15 with the flag for the low half, 1..15 without it
for the high half), and get_volume composed with the flag recovers the input
exactly. -/
theorem example_volume_round_trip :
    ∀ (rd : Si470x) (v : Nat),
      fm_is_powered_up rd = true → rd.async.task = none → v ≤ 30 →
      ∃ rd1 evts, example_set_volume rd v = some (rd1, evts)
        ∧ example_get_volume rd1 = v := by
  intro rd v h1 h2 hv
  unfold example_set_volume fm_set_volume
  simp only [h1, h2, ne_eq, not_true_eq_false, not_false_eq_true, Bool.true_eq_false,
    if_false, if_true, ite_false, ite_true]
  rw [if_pos hv]
  by_cases hlt : v < 16
  · rw [if_pos hlt]
    by_cases hc : rd.volume = min v FM_MAX_VOLUME ∧ rd.volext = true
    · rw [if_pos hc]
      refine ⟨rd, [], rfl, ?_⟩
      simp only [example_get_volume, fm_get_volume, fm_get_volext, hc.2]
      simp only [Bool.true_eq_false, and_false, if_false, ite_false]
      rw [hc.1]
      unfold FM_MAX_VOLUME
      omega
    · rw [if_neg hc]
      refine ⟨_, _, rfl, ?_⟩
      simp only [example_get_volume, fm_get_volume, fm_get_volext]
      simp only [Bool.true_eq_false, and_false, if_false, ite_false]
      unfold FM_MAX_VOLUME
      omega
  · rw [if_neg hlt]
    by_cases hc : rd.volume = min (v - 15) FM_MAX_VOLUME ∧ rd.volext = false
    · rw [if_pos hc]
      refine ⟨rd, [], rfl, ?_⟩
      simp only [example_get_volume, fm_get_volume, fm_get_volext, hc.2]
      rw [if_pos ⟨by rw [hc.1]; unfold FM_MAX_VOLUME; omega, by trivial⟩]
      rw [hc.1]
      unfold FM_MAX_VOLUME
      omega
    · rw [if_neg hc]
      refine ⟨_, _, rfl, ?_⟩
      simp only [example_get_volume, fm_get_volume, fm_get_volext]
      rw [if_pos ⟨by unfold FM_MAX_VOLUME; omega, by trivial⟩]
      unfold FM_MAX_VOLUME
      omega

theorem example_volume_round_trip_witness :
    fm_is_powered_up exRadioUp = true ∧ exRadioUp.async.task = none
      ∧ ∃ rd1 evts, example_set_volume exRadioUp 23 = some (rd1, evts)
          ∧ example_get_volume rd1 = 23 :=
  ⟨rfl, rfl, example_volume_round_trip exRadioUp 23 rfl rfl (by decide)⟩

-- Claim C10

/-- Claim C10: every value setter invoked with the currently cached value
(volume after clamping to 15) returns early with zero bus transactions and an
unchanged device handle; the blocking tune does the same when asked for the
cached frequency, also leaving the oracle untouched. -/
theorem fm_setters_cached_value_no_op :
    ∀ rd : Si470x, fm_is_powered_up rd = true → rd.async.task = none →
      fm_set_mute rd rd.mute = some (rd, [])
        ∧ fm_set_softmute rd rd.softmute = some (rd, [])
        ∧ fm_set_softmute_rate rd rd.softmute_rate = some (rd, [])
        ∧ fm_set_softmute_attenuation rd rd.softmute_attenuation = some (rd, [])
        ∧ fm_set_mono rd rd.mono = some (rd, [])
        ∧ fm_set_seek_sensitivity rd rd.seek_sensitivity = some (rd, [])
        ∧ (∀ (v : Nat) (volext : Bool), min v FM_MAX_VOLUME = rd.volume →
            volext = rd.volext → fm_set_volume rd v volext = some (rd, []))
        ∧ (∀ (times : List Nat) (snaps : Snaps),
            fm_set_frequency_blocking rd rd.frequency times snaps = some (rd, snaps, [])) := by
  intro rd h1 h2
  refine ⟨?_, ?_, ?_, ?_, ?_, ?_, ?_, ?_⟩
  · simp [fm_set_mute, h1, h2]
  · simp [fm_set_softmute, h1, h2]
  · simp [fm_set_softmute_rate, h1, h2]
  · simp [fm_set_softmute_attenuation, h1, h2]
  · simp [fm_set_mono, h1, h2]
  · simp [fm_set_seek_sensitivity, h1, h2]
  · intro v volext hv hx
    unfold fm_set_volume
    simp only [h1, h2, ne_eq, not_true_eq_false, not_false_eq_true, Bool.true_eq_false,
      if_false, if_true, ite_false, ite_true]
    rw [if_pos ⟨hv.symm, hx.symm⟩]
  · intro times snaps
    simp [fm_set_frequency_blocking, h1, h2]

theorem fm_setters_cached_value_no_op_witness :
    fm_is_powered_up exRadioUp = true ∧ exRadioUp.async.task = none
      ∧ fm_set_mute exRadioUp exRadioUp.mute = some (exRadioUp, [])
      ∧ fm_set_frequency_blocking exRadioUp exRadioUp.frequency [] []
          = some (exRadioUp, [], []) :=
  ⟨rfl, rfl, (fm_setters_cached_value_no_op exRadioUp rfl rfl).1,
    (fm_setters_cached_value_no_op exRadioUp rfl rfl).2.2.2.2.2.2.2 [] []⟩

-- Claim C3

/-- Claim C3: starting a tune or a seek while the async slot is non-empty is
a contract violation (the entry assertion fires): the call is rejected with
no state change and no bus transaction, modelled as the none outcome. -/
theorem fm_async_start_requires_empty_slot :
    ∀ (rd : Si470x) (f : ℚ) (direction : FmSeekDirection) (now : Nat),
      rd.async.task ≠ none →
      fm_set_frequency_async rd f now = none ∧ fm_seek_async rd direction now = none := by
  intro rd f direction now h
  constructor
  · simp [fm_set_frequency_async, h]
  · simp [fm_seek_async, h]

theorem fm_async_start_requires_empty_slot_witness :
    exRadioTune.async.task ≠ none
      ∧ fm_set_frequency_async exRadioTune 100 0 = none
      ∧ fm_seek_async exRadioTune FmSeekDirection.up 0 = none :=
  ⟨by decide,
    fm_async_start_requires_empty_slot exRadioTune 100 FmSeekDirection.up 0 (by decide)⟩

-- Claim C4

/-- Claim C4: a tick that arrives strictly before the resume time of the
async slot reports done equal to false immediately, performs no bus
transaction, consumes no oracle snapshot and leaves the handle unchanged. -/
theorem fm_tick_before_resume_no_effect :
    ∀ (rd : Si470x) (now : Nat) (snaps : Snaps) (t : FmAsyncTask),
      rd.async.task = some t → now < rd.async.resume_time →
      fm_async_task_tick rd now snaps = some (⟨false, 0⟩, rd, snaps, []) := by
  intro rd now snaps t ht hlt
  unfold fm_async_task_tick
  rw [ht]
  simp only [hlt, if_true, ite_true]

theorem fm_tick_before_resume_no_effect_witness :
    exRadioTune.async.task = some FmAsyncTask.tuneTask
      ∧ 0 < exRadioTune.async.resume_time
      ∧ fm_async_task_tick exRadioTune 0 [] = some (⟨false, 0⟩, exRadioTune, [], []) :=
  ⟨rfl, by decide,
    fm_tick_before_resume_no_effect exRadioTune 0 [] FmAsyncTask.tuneTask rfl (by decide)⟩

-- Claim C5

/-- Whenever fm_async_task_cancel returns, the async slot of the resulting
handle has been reset to the zero-initialized state. -/
theorem fm_async_task_cancel_empties :
    ∀ (rd : Si470x) (snaps : Snaps) (out : Si470x × Snaps × List Evt),
      fm_async_task_cancel rd snaps = some out → out.1.async = FmAsyncState.empty := by
  intro rd snaps out h
  unfold fm_async_task_cancel at h
  split at h
  · exact Option.noConfusion h
  · split at h
    · exact Option.noConfusion h
    · have h2 := Option.some.inj h
      rw [← h2]

/-- Claim C5: fm_async_task_cancel runs the stored task with cancel set and
clears the async slot, so afterwards the slot is empty and a new async task
is accepted immediately. -/
theorem fm_cancel_clears_slot :
    ∀ (rd : Si470x) (snaps : Snaps) (out : Si470x × Snaps × List Evt),
      fm_async_task_cancel rd snaps = some out →
      out.1.async = FmAsyncState.empty
        ∧ (∀ (f : ℚ) (now : Nat), fm_is_powered_up out.1 = true →
            fm_set_frequency_async out.1 f now ≠ none) := by
  intro rd snaps out h
  have he := fm_async_task_cancel_empties rd snaps out h
  refine ⟨he, ?_⟩
  intro f now hpow
  unfold fm_set_frequency_async
  simp [hpow, he, FmAsyncState.empty]

theorem fm_cancel_clears_slot_witness :
    (fm_async_task_cancel exRadioTune [exSnapClear, exSnapClear]).elim False
      (fun out => out.1.async = FmAsyncState.empty) := by
  cases h : fm_async_task_cancel exRadioTune [exSnapClear, exSnapClear] with
  | none => exact absurd h (by decide)
  | some out =>
    simp only [Option.elim]
    exact (fm_cancel_clears_slot exRadioTune [exSnapClear, exSnapClear] out h).1

-- Claim C6

/-- Whenever fm_seek_finish returns, the reported progress is done with the
result it was given. -/
theorem fm_seek_finish_progress :
    ∀ (r : Int) (rd : Si470x) (snaps : Snaps) (evts0 : List Evt)
      (out : FmAsyncProgress × Si470x × Snaps × List Evt),
      fm_seek_finish r rd snaps evts0 = some out → out.1 = ⟨true, r⟩ := by
  intro r rd snaps evts0 out h
  unfold fm_seek_finish at h
  dsimp only at h
  split at h
  · exact Option.noConfusion h
  · split at h
    · exact Option.noConfusion h
    · have h2 := Option.some.inj h
      rw [← h2]

/-- Reading through READCHAN copies the STATUSRSSI word of the snapshot into
the shadow. -/
theorem getReg_read2_statusrssi (regs : Regs) (snap : List Nat) :
    getReg (fm_read_registers regs snap (fm_read_registers_up_to_count READCHAN)) STATUSRSSI
      = snap.getD 10 0 &&& 0xFFFF := by
  have hred : fm_read_registers regs snap (fm_read_registers_up_to_count READCHAN)
      = setReg (setReg regs STATUSRSSI (snap.getD 10 0 &&& 0xFFFF)) READCHAN
          (snap.getD 11 0 &&& 0xFFFF) := rfl
  rw [hred, getReg_setReg_ne _ _ _ _ (by decide), getReg_setReg_self]

/-- Claim C6: when the seek task observes STC set it reports done with result
0 when SFBL is clear and -1 when SFBL is set; when invoked with cancel it
reports done with result -1; and in every case the progress result is 0 or
-1, so failure is visible only as the negative result value. -/
theorem fm_seek_task_result_codes :
    ∀ (rd : Si470x) (now : Nat) (snaps : Snaps),
      rd.async.task = some FmAsyncTask.seekTask → rd.async.state = 1 →
      (∀ out, fm_seek_async_task rd true now snaps = some out →
          out.1.done = true ∧ out.1.result = -1)
        ∧ (∀ (snap : List Nat) (rest : Snaps), snaps = snap :: rest →
            fm_get_bit (snap.getD 10 0 &&& 0xFFFF) STC_BIT = true →
            ∀ out, fm_seek_async_task rd false now snaps = some out →
              out.1.done = true
                ∧ (fm_get_bit (snap.getD 10 0 &&& 0xFFFF) SFBL_BIT = false →
                    out.1.result = 0)
                ∧ (fm_get_bit (snap.getD 10 0 &&& 0xFFFF) SFBL_BIT = true →
                    out.1.result = -1))
        ∧ (∀ (cancel : Bool) out, fm_seek_async_task rd cancel now snaps = some out →
            out.1.result = 0 ∨ out.1.result = -1) := by
  intro rd now snaps ht hstate
  have hg1 : ¬rd.async.task ≠ some FmAsyncTask.seekTask := by simp [ht]
  have hg2 : ¬rd.async.state ≠ 1 := by simp [hstate]
  refine ⟨?_, ?_, ?_⟩
  · intro out h
    unfold fm_seek_async_task at h
    rw [if_neg hg1, if_neg hg2, if_pos rfl] at h
    have hp := fm_seek_finish_progress _ _ _ _ out h
    rw [hp]
    exact ⟨rfl, rfl⟩
  · intro snap rest hsnaps hstc out h
    subst hsnaps
    unfold fm_seek_async_task at h
    rw [if_neg hg1, if_neg hg2, if_neg (by simp)] at h
    split at h
    · rename_i heq
      simp [fm_read_registers_up_to] at heq
    · rename_i regs1 snaps1 evts1 heq
      simp only [fm_read_registers_up_to, Option.some.injEq, Prod.mk.injEq] at heq
      obtain ⟨h3, h4, h5⟩ := heq
      subst_vars
      rw [getReg_read2_statusrssi, hstc] at h
      rw [if_neg (by simp)] at h
      have hp := fm_seek_finish_progress _ _ _ _ out h
      refine ⟨by rw [hp], fun hsf => ?_, fun hsf => ?_⟩
      · rw [hp]
        dsimp only
        rw [hsf]
        rfl
      · rw [hp]
        dsimp only
        rw [hsf]
        rfl
  · intro cancel out h
    unfold fm_seek_async_task at h
    rw [if_neg hg1, if_neg hg2] at h
    cases cancel with
    | true =>
      rw [if_pos rfl] at h
      have hp := fm_seek_finish_progress _ _ _ _ out h
      rw [hp]
      right
      rfl
    | false =>
      rw [if_neg (by simp)] at h
      split at h
      · exact Option.noConfusion h
      · rename_i regs1 snaps1 evts1 heq
        split at h
        · have h2 := Option.some.inj h
          rw [← h2]
          left
          rfl
        · have hp := fm_seek_finish_progress _ _ _ _ out h
          rw [hp]
          dsimp only
          split
          · right
            rfl
          · left
            rfl

theorem fm_seek_task_result_codes_witness :
    (fm_seek_async_task exRadioSeek false 6000 [exSnapStc, exSnapClear, exSnapClear]).elim
      False (fun out => out.1.done = true ∧ out.1.result = 0) := by
  cases h : fm_seek_async_task exRadioSeek false 6000 [exSnapStc, exSnapClear, exSnapClear] with
  | none => exact absurd h (by decide)
  | some out =>
    simp only [Option.elim]
    have hmain :=
      (fm_seek_task_result_codes exRadioSeek 6000 [exSnapStc, exSnapClear, exSnapClear]
          rfl rfl).2.1 exSnapStc [exSnapClear, exSnapClear] rfl (by decide) out h
    exact ⟨hmain.1, hmain.2.1 (by decide)⟩

-- Claim C2

/-- Bit bookkeeping of the fast wake-up path: after setting ENABLE, clearing
DISABLE and writing DMUTE into a power register word, the three bits read
back as written. -/
theorem fast_path_powercfg_bits (x : Nat) (m : Bool) :
    fm_get_bit (fm_set_bit (fm_set_bit (fm_set_bit x ENABLE_BIT true) DISABLE_BIT false)
        DMUTE_BIT m) ENABLE_BIT = true
      ∧ fm_get_bit (fm_set_bit (fm_set_bit (fm_set_bit x ENABLE_BIT true) DISABLE_BIT false)
          DMUTE_BIT m) DISABLE_BIT = false
      ∧ fm_get_bit (fm_set_bit (fm_set_bit (fm_set_bit x ENABLE_BIT true) DISABLE_BIT false)
          DMUTE_BIT m) DMUTE_BIT = m := by
  unfold ENABLE_BIT DISABLE_BIT DMUTE_BIT
  refine ⟨?_, ?_, ?_⟩
  · rw [fm_get_bit_fm_set_bit _ 14 0 (by omega) m, if_neg (by omega),
      fm_get_bit_fm_set_bit _ 6 0 (by omega) false, if_neg (by omega),
      fm_get_bit_fm_set_bit _ 0 0 (by omega) true, if_pos rfl]
  · rw [fm_get_bit_fm_set_bit _ 14 6 (by omega) m, if_neg (by omega),
      fm_get_bit_fm_set_bit _ 6 6 (by omega) false, if_pos rfl]
  · rw [fm_get_bit_fm_set_bit _ 14 14 (by omega) m, if_pos rfl]

/-- Claim C2 (amended): with the shadow DISABLE bit set and a requested
config equal to the stored one, fm_power_up takes the fast path: ENABLE set,
DISABLE cleared, DMUTE restored from the cached mute in the shadow power
register, one burst write covering only the power-control register followed
by the fixed settle delay, the cached mute state preserved and no hardware
read issued; on RDS-capable devices one additional burst write through
SYSCONFIG1 restores the RDS-enable bit. -/
theorem fm_power_up_fast_path :
    ∀ (rd : Si470x) (config : FmConfig) (times : List Nat) (snaps : Snaps),
      fm_is_powered_up rd = false →
      fm_get_bit (getReg rd.regs POWERCFG) DISABLE_BIT = true →
      rd.config = config →
      ∀ out, fm_power_up rd config times snaps = some out →
        out.1.mute = rd.mute
          ∧ fm_get_bit (getReg out.1.regs POWERCFG) ENABLE_BIT = true
          ∧ fm_get_bit (getReg out.1.regs POWERCFG) DISABLE_BIT = false
          ∧ fm_get_bit (getReg out.1.regs POWERCFG) DMUTE_BIT = !rd.mute
          ∧ out.2.1 = snaps
          ∧ out.2.2 = (if fm_is_rds_supported rd then
                [fm_write_registers_up_to_evt POWERCFG, Evt.sleepMs 110,
                  fm_write_registers_up_to_evt SYSCONFIG1]
              else [fm_write_registers_up_to_evt POWERCFG, Evt.sleepMs 110]) := by
  intro rd config times snaps h1 h2 h3 out h
  unfold fm_power_up at h
  rw [h1] at h
  rw [if_neg (by simp)] at h
  rw [if_pos ⟨h2, h3⟩] at h
  dsimp only at h
  have hchip : getReg (updBit (updBit (updBit rd.regs POWERCFG ENABLE_BIT true) POWERCFG DISABLE_BIT false) POWERCFG DMUTE_BIT (!rd.mute)) CHIPID = getReg rd.regs CHIPID := by
    rw [getReg_updBit_ne _ _ _ _ _ (by decide), getReg_updBit_ne _ _ _ _ _ (by decide),
      getReg_updBit_ne _ _ _ _ _ (by decide)]
  have hrds : fm_is_rds_supported {rd with regs := updBit (updBit (updBit rd.regs POWERCFG ENABLE_BIT true) POWERCFG DISABLE_BIT false) POWERCFG DMUTE_BIT (!rd.mute)} = fm_is_rds_supported rd := by
    show (fm_get_bits (getReg (updBit (updBit (updBit rd.regs POWERCFG ENABLE_BIT true) POWERCFG DISABLE_BIT false) POWERCFG DMUTE_BIT (!rd.mute)) CHIPID) DEV_BITS DEV_LSB == DEV_SI4703) = fm_is_rds_supported rd
    rw [hchip]
    rfl
  rw [hrds] at h
  by_cases hr : fm_is_rds_supported rd = true
  · rw [hr] at h
    rw [if_pos rfl] at h
    have h4 := Option.some.inj h
    subst h4
    rw [hr]
    refine ⟨rfl, ?_, ?_, ?_, rfl, rfl⟩
    · show fm_get_bit (getReg (updBit (updBit (updBit (updBit rd.regs POWERCFG ENABLE_BIT true) POWERCFG DISABLE_BIT false) POWERCFG DMUTE_BIT (!rd.mute)) SYSCONFIG1 RDS_BIT true) POWERCFG) ENABLE_BIT = true
      rw [getReg_updBit_ne _ _ _ _ _ (by decide), getReg_updBit_self, getReg_updBit_self,
        getReg_updBit_self]
      exact (fast_path_powercfg_bits _ _).1
    · show fm_get_bit (getReg (updBit (updBit (updBit (updBit rd.regs POWERCFG ENABLE_BIT true) POWERCFG DISABLE_BIT false) POWERCFG DMUTE_BIT (!rd.mute)) SYSCONFIG1 RDS_BIT true) POWERCFG) DISABLE_BIT = false
      rw [getReg_updBit_ne _ _ _ _ _ (by decide), getReg_updBit_self, getReg_updBit_self,
        getReg_updBit_self]
      exact (fast_path_powercfg_bits _ _).2.1
    · show fm_get_bit (getReg (updBit (updBit (updBit (updBit rd.regs POWERCFG ENABLE_BIT true) POWERCFG DISABLE_BIT false) POWERCFG DMUTE_BIT (!rd.mute)) SYSCONFIG1 RDS_BIT true) POWERCFG) DMUTE_BIT = !rd.mute
      rw [getReg_updBit_ne _ _ _ _ _ (by decide), getReg_updBit_self, getReg_updBit_self,
        getReg_updBit_self]
      exact (fast_path_powercfg_bits _ _).2.2
  · rw [Bool.not_eq_true] at hr
    rw [hr] at h
    rw [if_neg (by simp)] at h
    have h4 := Option.some.inj h
    subst h4
    rw [hr]
    refine ⟨rfl, ?_, ?_, ?_, rfl, rfl⟩
    · show fm_get_bit (getReg (updBit (updBit (updBit rd.regs POWERCFG ENABLE_BIT true) POWERCFG DISABLE_BIT false) POWERCFG DMUTE_BIT (!rd.mute)) POWERCFG) ENABLE_BIT = true
      rw [getReg_updBit_self, getReg_updBit_self, getReg_updBit_self]
      exact (fast_path_powercfg_bits _ _).1
    · show fm_get_bit (getReg (updBit (updBit (updBit rd.regs POWERCFG ENABLE_BIT true) POWERCFG DISABLE_BIT false) POWERCFG DMUTE_BIT (!rd.mute)) POWERCFG) DISABLE_BIT = false
      rw [getReg_updBit_self, getReg_updBit_self, getReg_updBit_self]
      exact (fast_path_powercfg_bits _ _).2.1
    · show fm_get_bit (getReg (updBit (updBit (updBit rd.regs POWERCFG ENABLE_BIT true) POWERCFG DISABLE_BIT false) POWERCFG DMUTE_BIT (!rd.mute)) POWERCFG) DMUTE_BIT = !rd.mute
      rw [getReg_updBit_self, getReg_updBit_self, getReg_updBit_self]
      exact (fast_path_powercfg_bits _ _).2.2

theorem fm_power_up_fast_path_witness :
    (fm_power_up exRadioSleepRds exConfig [] []).elim False
      (fun out => out.1.mute = exRadioSleepRds.mute
        ∧ out.2.2 = [fm_write_registers_up_to_evt POWERCFG, Evt.sleepMs 110,
            fm_write_registers_up_to_evt SYSCONFIG1]) := by
  cases h : fm_power_up exRadioSleepRds exConfig [] [] with
  | none => exact absurd h (by decide)
  | some out =>
    simp only [Option.elim]
    have hm := fm_power_up_fast_path exRadioSleepRds exConfig [] [] rfl (by decide) rfl out h
    refine ⟨hm.1, ?_⟩
    rw [hm.2.2.2.2.2]
    decide

/-- Claim C2 as frozen is refuted on an RDS-capable device: the fast path of
fm_power_up issues, besides the power-control write, a second burst write
through SYSCONFIG1 (covering registers 0x2..0x4), so the trace does not write
only the power-control register. -/
theorem fm_power_up_fast_path_counterexample :
    (fm_power_up exRadioSleepRds exConfig [] []).map (fun out => out.2.2)
        = some [Evt.write 1, Evt.sleepMs 110, Evt.write 3]
      ∧ ([Evt.write 1, Evt.sleepMs 110, Evt.write 3].all (evt_writes_at_most 1)) = false
      ∧ fm_get_bit (getReg exRadioSleepRds.regs POWERCFG) DISABLE_BIT = true
      ∧ exRadioSleepRds.config = exConfig
      ∧ fm_is_powered_up exRadioSleepRds = false := by
  refine ⟨?_, ?_, ?_, ?_, ?_⟩ <;> decide

-- Claim C7

/-- Bit bookkeeping of power down: after clearing DMUTE, setting DISABLE and
then clearing ENABLE in a power register word, the three bits read back as
written. -/
theorem power_down_powercfg_bits (x : Nat) :
    fm_get_bit (fm_set_bit (fm_set_bit (fm_set_bit x DMUTE_BIT false) DISABLE_BIT true)
        ENABLE_BIT false) ENABLE_BIT = false
      ∧ fm_get_bit (fm_set_bit (fm_set_bit (fm_set_bit x DMUTE_BIT false) DISABLE_BIT true)
          ENABLE_BIT false) DISABLE_BIT = true
      ∧ fm_get_bit (fm_set_bit (fm_set_bit (fm_set_bit x DMUTE_BIT false) DISABLE_BIT true)
          ENABLE_BIT false) DMUTE_BIT = false := by
  unfold ENABLE_BIT DISABLE_BIT DMUTE_BIT
  refine ⟨?_, ?_, ?_⟩
  · rw [fm_get_bit_fm_set_bit _ 0 0 (by omega) false, if_pos rfl]
  · rw [fm_get_bit_fm_set_bit _ 0 6 (by omega) false, if_neg (by omega),
      fm_get_bit_fm_set_bit _ 6 6 (by omega) true, if_pos rfl]
  · rw [fm_get_bit_fm_set_bit _ 0 14 (by omega) false, if_neg (by omega),
      fm_get_bit_fm_set_bit _ 6 14 (by omega) true, if_neg (by omega),
      fm_get_bit_fm_set_bit _ 14 14 (by omega) false, if_pos rfl]

/-- Claim C7: fm_power_down cancels any in-flight async task first (leaving
the slot empty), on RDS-capable devices writes the RDS-disable bit over the
bus before the power-control write that clears DMUTE and sets DISABLE, and
afterwards clears the shadow ENABLE bit without touching the bus again, so
fm_is_powered_up reports false. -/
theorem fm_power_down_claims :
    (∀ (rd : Si470x) (snaps : Snaps) (out : Si470x × Snaps × List Evt),
        fm_power_down rd snaps = some out →
        out.1.async.task = none
          ∧ fm_is_powered_up out.1 = false
          ∧ fm_get_bit (getReg out.1.regs POWERCFG) DISABLE_BIT = true
          ∧ fm_get_bit (getReg out.1.regs POWERCFG) DMUTE_BIT = false)
      ∧ (∀ (rd : Si470x) (snaps : Snaps) (out : Si470x × Snaps × List Evt),
          rd.async.task = none → fm_power_down rd snaps = some out →
          out.2.1 = snaps
            ∧ out.2.2 = (if fm_is_rds_supported rd then
                  [fm_write_registers_up_to_evt SYSCONFIG1] else [])
                ++ [fm_write_registers_up_to_evt POWERCFG]
            ∧ (fm_is_rds_supported rd = true →
                fm_get_bit (getReg out.1.regs SYSCONFIG1) RDS_BIT = false))
      ∧ (∀ (rd : Si470x) (snaps : Snaps) (out : Si470x × Snaps × List Evt) (t : FmAsyncTask),
          rd.async.task = some t → fm_power_down rd snaps = some out →
          ∃ cOut, fm_async_task_cancel rd snaps = some cOut
            ∧ cOut.1.async = FmAsyncState.empty
            ∧ ∃ tail, out.2.2 = cOut.2.2 ++ tail) := by
  refine ⟨?_, ?_, ?_⟩
  · intro rd snaps out h
    unfold fm_power_down at h
    split at h
    · exact Option.noConfusion h
    · dsimp only at h
      split at h
      · exact Option.noConfusion h
      · rename_i rd1 snaps1 evts1 heq
        have htask1 : rd1.async.task = none := by
          split at heq
          · have h5 := congrArg (fun p => p.1) (Option.some.inj heq)
            rename_i hte
            rw [show rd1 = rd from h5.symm]
            exact hte
          · have h6 := fm_async_task_cancel_empties rd snaps (rd1, snaps1, evts1) heq
            rw [show rd1.async = FmAsyncState.empty from h6]
            rfl
        have h4 := Option.some.inj h
        subst h4
        refine ⟨?_, ?_, ?_, ?_⟩
        · split <;> exact htask1
        · unfold fm_is_powered_up
          rw [getReg_updBit_self, getReg_updBit_self, getReg_updBit_self]
          exact (power_down_powercfg_bits _).1
        · rw [getReg_updBit_self, getReg_updBit_self, getReg_updBit_self]
          exact (power_down_powercfg_bits _).2.1
        · rw [getReg_updBit_self, getReg_updBit_self, getReg_updBit_self]
          exact (power_down_powercfg_bits _).2.2
  · intro rd snaps out htask h
    unfold fm_power_down at h
    split at h
    · exact Option.noConfusion h
    · dsimp only at h
      split at h
      · exact Option.noConfusion h
      · rename_i rd1 snaps1 evts1 heq
        split at heq
        · have h5 := Option.some.inj heq
          have h5a : rd = rd1 := congrArg (fun p => p.1) h5
          have h5b : snaps = snaps1 := congrArg (fun p => p.2.1) h5
          have h5c : ([] : List Evt) = evts1 := congrArg (fun p => p.2.2) h5
          subst h5a
          subst h5b
          subst h5c
          have h4 := Option.some.inj h
          subst h4
          refine ⟨rfl, ?_, ?_⟩
          · split <;> rfl
          · intro hr
            rw [getReg_updBit_ne _ _ _ _ _ (by decide), getReg_updBit_ne _ _ _ _ _ (by decide),
              getReg_updBit_ne _ _ _ _ _ (by decide)]
            rw [hr]
            rw [if_pos rfl]
            rw [show ({rd with regs := updBit rd.regs SYSCONFIG1 RDS_BIT false} : Si470x).regs = updBit rd.regs SYSCONFIG1 RDS_BIT false from rfl]
            rw [getReg_updBit_self]
            unfold RDS_BIT
            rw [fm_get_bit_fm_set_bit _ 12 12 (by omega) false, if_pos rfl]
        · rename_i t2 hte
          rw [htask] at hte
          exact Option.noConfusion hte
  · intro rd snaps out t htask h
    unfold fm_power_down at h
    split at h
    · exact Option.noConfusion h
    · dsimp only at h
      split at h
      · exact Option.noConfusion h
      · rename_i rd1 snaps1 evts1 heq
        split at heq
        · rename_i hte
          rw [htask] at hte
          exact Option.noConfusion hte
        · refine ⟨(rd1, snaps1, evts1), heq,
            fm_async_task_cancel_empties rd snaps _ heq, ?_⟩
          have h4 := Option.some.inj h
          subst h4
          exact ⟨_, List.append_assoc _ _ _⟩

theorem fm_power_down_claims_witness :
    (fm_power_down exRadioUpRds []).elim False
      (fun out => out.1.async.task = none ∧ fm_is_powered_up out.1 = false
        ∧ out.2.2 = (if fm_is_rds_supported exRadioUpRds then
              [fm_write_registers_up_to_evt SYSCONFIG1] else [])
            ++ [fm_write_registers_up_to_evt POWERCFG]) := by
  cases h : fm_power_down exRadioUpRds [] with
  | none => exact absurd h (by decide)
  | some out =>
    simp only [Option.elim]
    have hA := fm_power_down_claims.1 exRadioUpRds [] out h
    have hB := fm_power_down_claims.2.1 exRadioUpRds [] out rfl h
    exact ⟨hA.1, hA.2.1, hB.2.1⟩
